import Mathlib

set_option maxHeartbeats 1000000

/- Formal model of the camera-trap species detection pipeline
   (path parsing, GPS conversion, quality scoring, crop geometry,
   classifier filtering, database operations, per-image handler).
   Python floats are modelled as rationals; machine integer
   truncation is modelled explicitly where it occurs. -/

/-- Raw image bytes, modelled as a list of byte values. -/
abbrev Bytes := List Nat

/-- One classifier prediction, as built in SpeciesNet.classify. -/
structure Prediction where
  scientific_name : String
  common_name : String
  confidence : ℚ
deriving DecidableEq

/-- Normalized bounding box (x, y, width, height), components in the unit interval. -/
abbrev BBox := ℚ × ℚ × ℚ × ℚ

/-- One detector output box, as returned by MegaDetector.detect. -/
structure Detection where
  category : String
  confidence : ℚ
  bbox : BBox
deriving DecidableEq

/-- GPS tag block from EXIF, tags 1..6 each independently present or absent
    (utils.extract_gps_data reads the block through membership tests). -/
structure GpsInfo where
  latRef : Option String
  lat : Option (ℚ × ℚ × ℚ)
  lonRef : Option String
  lon : Option (ℚ × ℚ × ℚ)
  seaLevelFlag : Option ℤ
  altitude : Option ℚ
deriving DecidableEq

/-- Output of the GPS extraction: each coordinate independently optional. -/
structure GpsOut where
  gps_latitude : Option ℚ
  gps_longitude : Option ℚ
  gps_altitude : Option ℚ
deriving DecidableEq

/-- utils.convert_to_degrees: sexagesimal triple to decimal degrees. -/
def convert_to_degrees (d m s : ℚ) : ℚ :=
  d + m / 60 + s / 3600

/-- utils.extract_gps_data (lines 73-111): latitude needs tags 1 and 2,
    longitude needs tags 3 and 4, altitude needs tag 6 and is negated when
    tag 5 equals 1; the result is None when no field was produced. -/
def extract_gps_data (g : GpsInfo) : Option GpsOut :=
  let latv : Option ℚ :=
    match g.latRef, g.lat with
    | some ref, some (d, m, s) =>
        let v := convert_to_degrees d m s
        some (if ref = "S" then -v else v)
    | _, _ => none
  let lonv : Option ℚ :=
    match g.lonRef, g.lon with
    | some ref, some (d, m, s) =>
        let v := convert_to_degrees d m s
        some (if ref = "W" then -v else v)
    | _, _ => none
  let altv : Option ℚ :=
    match g.altitude with
    | some a =>
        some (if g.seaLevelFlag = some 1 then -a else a)
    | none => none
  if latv = none ∧ lonv = none ∧ altv = none then none
  else some ⟨latv, lonv, altv⟩

/-- Latitude component of an optional GPS output. -/
def outLat (o : Option GpsOut) : Option ℚ :=
  match o with
  | none => none
  | some r => r.gps_latitude

/-- Longitude component of an optional GPS output. -/
def outLon (o : Option GpsOut) : Option ℚ :=
  match o with
  | none => none
  | some r => r.gps_longitude

/-- Altitude component of an optional GPS output. -/
def outAlt (o : Option GpsOut) : Option ℚ :=
  match o with
  | none => none
  | some r => r.gps_altitude

/-- Decoded single-channel luminance grid of an image: width, height and
    pixel values (the decode primitive of the pixel library). -/
structure Gray where
  W : ℕ
  H : ℕ
  pix : ℕ → ℕ → ℤ

/-- Constant-valued grid. -/
def constGray (W H : ℕ) (c : ℤ) : Gray := ⟨W, H, fun _ _ => c⟩

/-- Sum of a function over one row of column indices. -/
def rowSum (W : ℕ) (f : ℕ → ℚ) : ℚ := ((List.range W).map f).sum

/-- Sum of a function over the whole index grid. -/
def sum2 (W H : ℕ) (f : ℕ → ℕ → ℚ) : ℚ :=
  ((List.range H).map (fun i => rowSum W (f i))).sum

/-- Half-sample symmetric boundary reflection used by the convolution
    (scipy boundary symm): index -1 maps to 0, index n maps to n-1. -/
def reflect (n : ℕ) (i : ℤ) : ℤ :=
  if i < 0 then -i - 1 else if (n : ℤ) ≤ i then 2 * n - 1 - i else i

/-- Pixel access with symmetric boundary handling. -/
def pixAt (g : Gray) (i j : ℤ) : ℤ :=
  g.pix (reflect g.H i).toNat (reflect g.W j).toNat

/-- Discrete Laplacian kernel ((0,1,0),(1,-4,1),(0,1,0)) applied at one
    position with symmetric boundary handling. -/
def lapAt (g : Gray) (i j : ℕ) : ℤ :=
  pixAt g ((i : ℤ) - 1) j + pixAt g ((i : ℤ) + 1) j +
    pixAt g i ((j : ℤ) - 1) + pixAt g i ((j : ℤ) + 1) - 4 * pixAt g i j

/-- Rounding to 4 decimal digits, as applied by round(x, 4). -/
def round4 (q : ℚ) : ℚ := (round (q * 10000) : ℤ) / 10000

/-- Quality triple produced by utils.calculate_image_quality. -/
structure Quality where
  brightness : ℚ
  sharpness : ℚ
  overall : ℚ
deriving DecidableEq

/-- utils.calculate_image_quality (lines 128-185): brightness is the mean
    pixel value over 255, sharpness is the variance of the Laplacian
    convolution scaled by 500 and capped at 1, overall combines the two;
    the input is the decode result, None meaning the bytes failed to decode
    (the except branch), which yields the neutral triple. -/
def calculate_image_quality (img : Option Gray) : Quality :=
  match img with
  | none => ⟨1/2, 1/2, 1/2⟩
  | some g =>
      let n : ℚ := ((g.W * g.H : ℕ) : ℚ)
      let brightness := sum2 g.W g.H (fun i j => (g.pix i j : ℚ)) / n / 255
      let lap : ℕ → ℕ → ℚ := fun i j => (lapAt g i j : ℚ)
      let lapMean := sum2 g.W g.H lap / n
      let sharpness := sum2 g.W g.H (fun i j => (lap i j - lapMean) ^ 2) / n
      let sharpness_normalized := min (sharpness / 500) 1
      let brightness_quality := 1 - |brightness - 1/2| * 2
      let overall := brightness_quality * (3/10) + sharpness_normalized * (7/10)
      ⟨round4 brightness, round4 sharpness_normalized, round4 overall⟩

/-- Mean pixel value of a grid. -/
def meanPix (g : Gray) : ℚ :=
  sum2 g.W g.H (fun i j => (g.pix i j : ℚ)) / ((g.W * g.H : ℕ) : ℚ)

/-- Brightness: mean luminance normalized by 255. -/
def brightnessOf (g : Gray) : ℚ := meanPix g / 255

/-- Variance of the Laplacian convolution output over the grid. -/
def lapVarOf (g : Gray) : ℚ :=
  let n : ℚ := ((g.W * g.H : ℕ) : ℚ)
  let m := sum2 g.W g.H (fun i j => (lapAt g i j : ℚ)) / n
  sum2 g.W g.H (fun i j => ((lapAt g i j : ℚ) - m) ^ 2) / n

/-- Sharpness: Laplacian variance over 500, capped at 1. -/
def sharpnessNormOf (g : Gray) : ℚ := min (lapVarOf g / 500) 1

/-- Overall quality: 0.3 times the brightness quality plus 0.7 times sharpness. -/
def overallOf (g : Gray) : ℚ :=
  (1 - |brightnessOf g - 1/2| * 2) * (3/10) + sharpnessNormOf g * (7/10)

/-- Splitting a character list on the slash character, with the semantics of
    the Python string split: the empty string yields one empty segment, and
    adjacent separators yield empty segments. -/
def splitSlashAux : List Char → List (List Char)
  | [] => [[]]
  | c :: cs =>
      match splitSlashAux cs with
      | [] => [[]]
      | r :: rs => if c = '/' then [] :: r :: rs else (c :: r) :: rs

/-- Slash splitting on strings. -/
def splitSlash (s : String) : List String :=
  (splitSlashAux s.toList).map (fun l => ⟨l⟩)

/-- Path metadata derived from a storage key. -/
structure PathMeta where
  project_name : Option String
  country : Option String
  client : Option String
  camera_id : Option String
  date : Option String
  file_name : Option String
deriving DecidableEq

/-- handler.parse_s3_path (lines 70-86): positional assignment of the split
    segments, each field absent when the key has too few segments, and the
    file name taken from the last segment. -/
def parse_s3_path (s3_key : String) : PathMeta :=
  let parts := splitSlash s3_key
  { project_name := if 0 < parts.length then parts.get? 0 else none
    country := if 1 < parts.length then parts.get? 1 else none
    client := if 2 < parts.length then parts.get? 2 else none
    camera_id := if 3 < parts.length then parts.get? 3 else none
    date := if 4 < parts.length then parts.get? 4 else none
    file_name := if 0 < parts.length then parts.getLast? else none }

/-- Python int() truncation of a rational toward zero. -/
def pyInt (q : ℚ) : ℤ := if q < 0 then -⌊-q⌋ else ⌊q⌋

/-- megadetector.MegaDetector.crop_detection (lines 111-152), geometry part:
    normalized box to pixel box, 10 percent padding of the box size on each
    side, then clamping to the image bounds. Returns (left, top, right,
    bottom) as passed to the image crop primitive. -/
def crop_detection_rect (img_width img_height : ℕ) (bbox : BBox) : ℤ × ℤ × ℤ × ℤ :=
  let x := pyInt (bbox.1 * img_width)
  let y := pyInt (bbox.2.1 * img_height)
  let w := pyInt (bbox.2.2.1 * img_width)
  let h := pyInt (bbox.2.2.2 * img_height)
  let pad_x := pyInt ((w : ℚ) * (1/10))
  let pad_y := pyInt ((h : ℚ) * (1/10))
  (max 0 (x - pad_x), max 0 (y - pad_y),
   min (img_width : ℤ) (x + w + pad_x), min (img_height : ℤ) (y + h + pad_y))

/-- speciesnet.SpeciesNet.classify, filtering step (line 129): keep the
    ranked raw predictions whose confidence is at or above the threshold. -/
def SpeciesNet.classify (threshold : ℚ) (raw : List Prediction) : List Prediction :=
  raw.filter (fun p => threshold ≤ p.confidence)

/-- Payload of the images table insert built by handler.process_image. -/
structure ImageData where
  s3_bucket : String
  s3_key : String
  file_name : Option String
  file_size : Nat
  file_hash : String
  camera_id : Option String
  project_name : Option String
  client : Option String
  country : Option String
  captured_at : Option String
  exif_blob : String
  gps_latitude : Option ℚ
  gps_longitude : Option ℚ
  gps_altitude : Option ℚ
  camera_make : Option String
  camera_model : Option String
  width : Option Nat
  height : Option Nat
  format : Option String
  processing_status : String
  brightness_score : Option ℚ
  sharpness_score : Option ℚ
  quality_score : Option ℚ
deriving DecidableEq

/-- One row of the images table. -/
structure ImageRow where
  id : Nat
  data : ImageData
  error_message : Option String
  processed_at : Option Nat
  created_at : Nat
  updated_at : Nat
deriving DecidableEq

/-- One row of the detections table. -/
structure DetectionRow where
  id : Nat
  image_id : Nat
  detection_type : String
  bbox_x : ℚ
  bbox_y : ℚ
  bbox_width : ℚ
  bbox_height : ℚ
  megadetector_confidence : ℚ
  needs_review : Bool
  species_id : Option Nat
  speciesnet_confidence : Option ℚ
  overall_confidence : Option ℚ
  species_top5 : Option (List Prediction)
deriving DecidableEq

/-- One row of the species table. -/
structure SpeciesRow where
  id : Nat
  scientific_name : String
  common_name : Option String
deriving DecidableEq

/-- Durable relational store state: three tables and their serial counters. -/
structure DbState where
  images : List ImageRow
  detections : List DetectionRow
  species : List SpeciesRow
  next_image_id : Nat
  next_detection_id : Nat
  next_species_id : Nat
deriving DecidableEq

/-- database.DatabaseManager.insert_image (lines 81-117): insert with
    ON CONFLICT on the unique s3_key setting only updated_at, returning the
    id of the inserted or conflicting row. -/
def insert_image (db : DbState) (data : ImageData) (now : Nat) : Nat × DbState :=
  match db.images.find? (fun r => r.data.s3_key == data.s3_key) with
  | some r =>
      (r.id,
       { db with images := db.images.map (fun row =>
           if row.data.s3_key == data.s3_key then { row with updated_at := now } else row) })
  | none =>
      let id := db.next_image_id
      (id,
       { db with images := ⟨id, data, none, none, now, now⟩ :: db.images,
                 next_image_id := id + 1 })

/-- database.DatabaseManager.update_image_status (lines 119-137): set the
    processing status and error message of the row with the given id, stamp
    processed_at only for the completed status, and bump updated_at. -/
def update_image_status (db : DbState) (image_id : Nat) (status : String)
    (err : Option String) (now : Nat) : DbState :=
  { db with images := db.images.map (fun r =>
      if r.id == image_id then
        { r with data := { r.data with processing_status := status },
                 error_message := err,
                 processed_at := if status == "completed" then some now else r.processed_at,
                 updated_at := now }
      else r) }

/-- database.DatabaseManager.insert_detection (lines 139-169): append-only
    insert returning the new serial id. -/
def insert_detection (db : DbState) (r : DetectionRow) : Nat × DbState :=
  let id := db.next_detection_id
  (id, { db with detections := { r with id := id } :: db.detections,
                 next_detection_id := id + 1 })

/-- database.DatabaseManager.get_or_create_species (lines 171-228): reuse the
    row keyed by scientific name if present, otherwise create it. -/
def get_or_create_species (db : DbState) (sci : String) (common : Option String) :
    Nat × DbState :=
  match db.species.find? (fun s => s.scientific_name == sci) with
  | some s => (s.id, db)
  | none =>
      let id := db.next_species_id
      (id, { db with species := ⟨id, sci, common⟩ :: db.species,
                     next_species_id := id + 1 })

/-- Named placeholders of the images table INSERT (database.py lines 92-105),
    in query order; location_id is among them. -/
def images_insert_params : List String :=
  ["s3_bucket", "s3_key", "file_name", "file_size", "file_hash",
   "width", "height", "format", "camera_id", "location_id",
   "captured_at", "project_name", "client", "country",
   "exif_data", "gps_latitude", "gps_longitude", "gps_altitude",
   "camera_make", "camera_model", "processing_status",
   "brightness_score", "sharpness_score", "quality_score"]

/-- Keys of the image_record dict built by handler.process_image (lines
    154-178); location_id is not among them. -/
def image_record_keys : List String :=
  ["s3_bucket", "s3_key", "file_name", "file_size", "file_hash",
   "camera_id", "project_name", "client", "country", "captured_at",
   "exif_data", "gps_latitude", "gps_longitude", "gps_altitude",
   "camera_make", "camera_model", "width", "height", "format",
   "processing_status", "brightness_score", "sharpness_score", "quality_score"]

/-- First query placeholder missing from the keys of the provided mapping:
    the client-side interpolation performed by the database driver raises
    KeyError on it, before any SQL reaches the server. -/
def firstMissingParam (required provided : List String) : Option String :=
  required.find? (fun k => !(provided.contains k))

/-- Printed form of the KeyError raised for a missing mapping key: the key
    wrapped in single quote characters, as the str of the exception. -/
def keyErrorStr (k : String) : String :=
  String.mk [Char.ofNat 39] ++ k ++ String.mk [Char.ofNat 39]

/-- DatabaseManager.insert_image as invoked by the handler: the driver first
    interpolates the named placeholders of the query from the image_record
    mapping; that mapping lacks the location_id key, so the call raises
    KeyError and the upsert is never reached; with a complete mapping the
    upsert insert_image would run. -/
def insert_image_call (db : DbState) (record : ImageData) (now : Nat) :
    Except String (Nat × DbState) :=
  match firstMissingParam images_insert_params image_record_keys with
  | some k => .error (keyErrorStr k)
  | none => .ok (insert_image db record now)

/-- Named placeholders of the detections table INSERT (database.py lines
    150-160), in query order. -/
def detections_insert_params : List String :=
  ["image_id", "species_id", "detection_type",
   "bbox_x", "bbox_y", "bbox_width", "bbox_height",
   "megadetector_confidence", "speciesnet_confidence", "overall_confidence",
   "species_top5", "needs_review"]

/-- Keys of a detection_record dict: the base keys are always present, and
    each species key is present exactly when the handler attached that field
    (the four species fields travel together in the source). -/
def detection_record_keys (r : DetectionRow) : List String :=
  ["image_id", "detection_type", "bbox_x", "bbox_y", "bbox_width",
   "bbox_height", "megadetector_confidence", "needs_review"]
  ++ (if r.species_id.isSome then ["species_id"] else [])
  ++ (if r.speciesnet_confidence.isSome then ["speciesnet_confidence"] else [])
  ++ (if r.overall_confidence.isSome then ["overall_confidence"] else [])
  ++ (if r.species_top5.isSome then ["species_top5"] else [])

/-- DatabaseManager.insert_detection as invoked by the handler: placeholder
    interpolation raises KeyError species_id for the species-less dict; only
    a record carrying all species keys reaches the insert itself. -/
def insert_detection_call (db : DbState) (r : DetectionRow) :
    Except String (Nat × DbState) :=
  match firstMissingParam detections_insert_params (detection_record_keys r) with
  | some k => .error (keyErrorStr k)
  | none => .ok (insert_detection db r)

/-- Fields the handler copies out of the EXIF extraction result when building
    the image record (extract_exif_data is consumed through dict lookups). -/
structure ExifOut where
  captured_at : Option String
  camera_make : Option String
  camera_model : Option String
  gps_latitude : Option ℚ
  gps_longitude : Option ℚ
  gps_altitude : Option ℚ
  width : Option Nat
  height : Option Nat
  format : Option String
  blob : String
deriving DecidableEq

/-- One item of the DynamoDB tracking table, keyed by file_key. -/
structure DynItem where
  file_key : String
  processing_status : String
  updated_at : Nat
  image_id : Option Nat
  detection_count : Option Nat
  has_animals : Option Bool
  error_message : Option String
deriving DecidableEq

/-- Tracking store state: the items of the table. -/
abbrev DynState := List DynItem

/-- Optional metadata merged into a tracking item by the handler. -/
structure DynMeta where
  image_id : Option Nat
  detection_count : Option Nat
  has_animals : Option Bool
  error_message : Option String
deriving DecidableEq

/-- Empty metadata payload. -/
def emptyMeta : DynMeta := ⟨none, none, none, none⟩

/-- put_item semantics: replace the item with the same key. -/
def dynPut (dyn : DynState) (item : DynItem) : DynState :=
  item :: dyn.filter (fun it => !(it.file_key == item.file_key))

/-- Lookup of a tracking item by key. -/
def dynGet (dyn : DynState) (key : String) : Option DynItem :=
  dyn.find? (fun it => it.file_key == key)

/-- handler.update_dynamodb_status (lines 94-111): a put_item wrapped in a
    try block that swallows every store failure; the flag models whether the
    underlying put raises, in which case the store is left unchanged and no
    exception reaches the caller. -/
def update_dynamodb_status (ok : Bool) (dyn : DynState) (now : Nat)
    (key status : String) (meta : DynMeta) : DynState :=
  if ok then
    dynPut dyn ⟨key, status, now, meta.image_id, meta.detection_count,
                meta.has_animals, meta.error_message⟩
  else dyn

/-- External collaborators and initial state of one handler invocation: the
    object store fetch, the content hash primitive, the EXIF and pixel decode
    primitives, the two model capabilities (each may raise, modelled as an
    error message), the classifier threshold, and the two stores. -/
structure Env where
  bucket : String
  threshold : ℚ
  now : Nat
  db0 : DbState
  dyn0 : DynState
  fetch : String → Except String Bytes
  sha256 : Bytes → String
  exif : Bytes → ExifOut
  decodeGray : Bytes → Option Gray
  detect : Bytes → Except String (List Detection)
  crop : Bytes → BBox → Except String Bytes
  classifyRaw : Bytes → Except String (List Prediction)

/-- Image record dict built by handler.process_image (lines 154-178). -/
def build_image_record (env : Env) (s3_key : String) (bytes : Bytes) : ImageData :=
  let pm := parse_s3_path s3_key
  let ex := env.exif bytes
  let qm := calculate_image_quality (env.decodeGray bytes)
  { s3_bucket := env.bucket
    s3_key := s3_key
    file_name := pm.file_name
    file_size := bytes.length
    file_hash := env.sha256 bytes
    camera_id := pm.camera_id
    project_name := pm.project_name
    client := pm.client
    country := pm.country
    captured_at := ex.captured_at
    exif_blob := ex.blob
    gps_latitude := ex.gps_latitude
    gps_longitude := ex.gps_longitude
    gps_altitude := ex.gps_altitude
    camera_make := ex.camera_make
    camera_model := ex.camera_model
    width := ex.width
    height := ex.height
    format := ex.format
    processing_status := "processing"
    brightness_score := some qm.brightness
    sharpness_score := some qm.sharpness
    quality_score := some qm.overall }

/-- Base detection record dict built by the handler (lines 196-205): the
    review flag comes from the detector confidence and the species keys are
    not present in this dict. -/
def base_detection_record (image_id : Nat) (d : Detection) : DetectionRow :=
  { id := 0
    image_id := image_id
    detection_type := d.category
    bbox_x := d.bbox.1
    bbox_y := d.bbox.2.1
    bbox_width := d.bbox.2.2.1
    bbox_height := d.bbox.2.2.2
    megadetector_confidence := d.confidence
    needs_review := decide (d.confidence < 4/5)
    species_id := none
    speciesnet_confidence := none
    overall_confidence := none
    species_top5 := none }

/-- Loop body of handler.process_image (lines 191-243): build the base
    detection record; for an animal box crop and classify, and when the
    filtered prediction list is non-empty attach the species fields; then
    call insert_detection through the driver interpolation layer, which
    raises KeyError species_id whenever the species keys were not attached.
    A raise from the crop or classifier capability or from the insert aborts
    with the store state reached so far. -/
def processOneDetection (env : Env) (bytes : Bytes) (image_id : Nat)
    (db : DbState) (d : Detection) :
    Except (String × DbState) (DetectionRow × DbState) :=
  let base := base_detection_record image_id d
  if d.category = "animal" then
    match env.crop bytes d.bbox with
    | .error e => .error (e, db)
    | .ok cropped =>
        match env.classifyRaw cropped with
        | .error e => .error (e, db)
        | .ok raw =>
            match SpeciesNet.classify env.threshold raw with
            | [] =>
                match insert_detection_call db base with
                | .error e => .error (e, db)
                | .ok ins => .ok ({ base with id := ins.1 }, ins.2)
            | top :: rest =>
                let gcs := get_or_create_species db top.scientific_name (some top.common_name)
                let record :=
                  { base with
                      species_id := some gcs.1
                      speciesnet_confidence := some top.confidence
                      overall_confidence := some ((d.confidence + top.confidence) / 2)
                      species_top5 := some (top :: rest) }
                match insert_detection_call gcs.2 record with
                | .error e => .error (e, gcs.2)
                | .ok ins => .ok ({ record with id := ins.1 }, ins.2)
  else
    match insert_detection_call db base with
    | .error e => .error (e, db)
    | .ok ins => .ok ({ base with id := ins.1 }, ins.2)

/-- Detection loop of handler.process_image: process the boxes in order,
    collecting the inserted rows; the first raise aborts the loop. -/
def processDetections (env : Env) (bytes : Bytes) (image_id : Nat) :
    DbState → List Detection → Except (String × DbState) (List DetectionRow × DbState)
  | db, [] => .ok ([], db)
  | db, d :: ds =>
      match processOneDetection env bytes image_id db d with
      | .error e => .error e
      | .ok (row, db1) =>
          match processDetections env bytes image_id db1 ds with
          | .error e => .error e
          | .ok (rows, db2) => .ok (row :: rows, db2)

/-- Structured body of the handler response. -/
structure RunBody where
  message : String
  image_id : Option Nat
  detections : Option Nat
  error : Option String
  results : Option (List DetectionRow)
deriving DecidableEq

/-- Result of one handler invocation: HTTP style status code, response body
    and the final state of both stores. -/
structure RunResult where
  statusCode : Nat
  body : RunBody
  db : DbState
  dyn : DynState

/-- handler.process_image (lines 114-284): set the tracking status to
    PROCESSING, fetch the object, derive metadata, call the image upsert
    through the driver interpolation layer (which raises KeyError
    location_id, since the image_record mapping lacks that query key, before
    an image id is obtained), then the detector and the per-detection loop,
    then reconcile both stores; on any raise mark the image failed in the
    durable store only when an image id was obtained, always mark the
    tracking store DETECTION_FAILED with the message, and return a 500
    response. The flag models whether tracking store puts succeed
    (handler.update_dynamodb_status swallows put failures). -/
def process_image (dynOk : Bool) (env : Env) (s3_key : String) : RunResult :=
  let dyn1 := update_dynamodb_status dynOk env.dyn0 env.now s3_key "PROCESSING" emptyMeta
  match env.fetch s3_key with
  | .error e =>
      let dyn2 := update_dynamodb_status dynOk dyn1 env.now s3_key "DETECTION_FAILED"
        { emptyMeta with error_message := some e }
      { statusCode := 500, body := ⟨"Failed to process image", none, none, some e, none⟩,
        db := env.db0, dyn := dyn2 }
  | .ok bytes =>
    match insert_image_call env.db0 (build_image_record env s3_key bytes) env.now with
    | .error e =>
        let dyn2 := update_dynamodb_status dynOk dyn1 env.now s3_key "DETECTION_FAILED"
          { emptyMeta with error_message := some e }
        { statusCode := 500, body := ⟨"Failed to process image", none, none, some e, none⟩,
          db := env.db0, dyn := dyn2 }
    | .ok ins =>
      let image_id := ins.1
      let db1 := ins.2
      match env.detect bytes with
      | .error e =>
          let db2 := update_image_status db1 image_id "failed" (some e) env.now
          let dyn2 := update_dynamodb_status dynOk dyn1 env.now s3_key "DETECTION_FAILED"
            { emptyMeta with error_message := some e }
          { statusCode := 500, body := ⟨"Failed to process image", none, none, some e, none⟩,
            db := db2, dyn := dyn2 }
      | .ok dets =>
          match processDetections env bytes image_id db1 dets with
          | .error (e, db2) =>
              let db3 := update_image_status db2 image_id "failed" (some e) env.now
              let dyn2 := update_dynamodb_status dynOk dyn1 env.now s3_key "DETECTION_FAILED"
                { emptyMeta with error_message := some e }
              { statusCode := 500, body := ⟨"Failed to process image", none, none, some e, none⟩,
                db := db3, dyn := dyn2 }
          | .ok (rows, db2) =>
              let db3 := update_image_status db2 image_id "completed" none env.now
              let dyn2 := update_dynamodb_status dynOk dyn1 env.now s3_key "DETECTION_COMPLETE"
                { image_id := some image_id, detection_count := some dets.length,
                  has_animals := some (rows.any (fun r => r.detection_type == "animal")),
                  error_message := none }
              { statusCode := 200,
                body := ⟨"Image processed successfully", some image_id, some dets.length,
                         none, some rows⟩,
                db := db3, dyn := dyn2 }
/-- C9 counterexample: on the single-segment key the parser sets the file
    name to the only segment, not to an absent value as the claim states. -/
theorem parse_s3_path_filename_counterexample :
    (parse_s3_path "onlyfile.jpg").file_name = some "onlyfile.jpg" := by decide

/-- C9 (amended): the parser is total, assigns the five leading fields
    positionally with segments beyond the available length absent, and always
    takes the file name from the last segment; on the single-segment key both
    the project field and the file name hold that segment. -/
theorem parse_s3_path_positional :
    parse_s3_path "proj/Brazil/acme/cam07/2024-01-01/IMG_0001.JPG" =
      ⟨some "proj", some "Brazil", some "acme", some "cam07",
       some "2024-01-01", some "IMG_0001.JPG"⟩ ∧
    parse_s3_path "onlyfile.jpg" =
      ⟨some "onlyfile.jpg", none, none, none, none, some "onlyfile.jpg"⟩ ∧
    (∀ key : String,
      (parse_s3_path key).project_name = (splitSlash key).get? 0 ∧
      (parse_s3_path key).country = (splitSlash key).get? 1 ∧
      (parse_s3_path key).client = (splitSlash key).get? 2 ∧
      (parse_s3_path key).camera_id = (splitSlash key).get? 3 ∧
      (parse_s3_path key).date = (splitSlash key).get? 4 ∧
      (parse_s3_path key).file_name = (splitSlash key).getLast?) := by
  have hif : ∀ (l : List String) (k : Nat),
      (if k < l.length then l.get? k else none) = l.get? k := by
    intro l k
    by_cases h : k < l.length
    · rw [if_pos h]
    · rw [if_neg h, Eq.comm, List.get?_eq_none]
      exact Nat.le_of_not_lt h
  have hlast : ∀ l : List String,
      (if 0 < l.length then l.getLast? else none) = l.getLast? := by
    intro l
    by_cases h : 0 < l.length
    · rw [if_pos h]
    · rw [if_neg h]
      have hnil : l = [] := List.length_eq_zero.mp (Nat.eq_zero_of_not_pos h)
      subst hnil; rfl
  refine ⟨by decide, by decide, fun key => ?_⟩
  exact ⟨hif _ 0, hif _ 1, hif _ 2, hif _ 3, hif _ 4, hlast _⟩

/-- C6: the GPS extraction produces each coordinate exactly when its source
    tags are present, with magnitude degrees plus minutes over 60 plus
    seconds over 3600, latitude negated exactly for ref S, longitude exactly
    for ref W, altitude negated exactly when the below sea level flag is 1,
    and an empty output instead of an error when no GPS field is present. -/
theorem extract_gps_data_correct (g : GpsInfo) :
    ((outLat (extract_gps_data g)).isSome = (g.latRef.isSome && g.lat.isSome)) ∧
    (∀ ref d m s, g.latRef = some ref → g.lat = some (d, m, s) →
      outLat (extract_gps_data g) =
        some (if ref = "S" then -(d + m/60 + s/3600) else d + m/60 + s/3600)) ∧
    ((outLon (extract_gps_data g)).isSome = (g.lonRef.isSome && g.lon.isSome)) ∧
    (∀ ref d m s, g.lonRef = some ref → g.lon = some (d, m, s) →
      outLon (extract_gps_data g) =
        some (if ref = "W" then -(d + m/60 + s/3600) else d + m/60 + s/3600)) ∧
    ((outAlt (extract_gps_data g)).isSome = g.altitude.isSome) ∧
    (∀ a, g.altitude = some a →
      outAlt (extract_gps_data g) = some (if g.seaLevelFlag = some 1 then -a else a)) ∧
    ((g.latRef = none ∨ g.lat = none) → (g.lonRef = none ∨ g.lon = none) →
      g.altitude = none → extract_gps_data g = none) := by
  obtain ⟨lr, la, nr, no, fl, al⟩ := g
  refine ⟨?_, ?_, ?_, ?_, ?_, ?_, ?_⟩ <;>
    rcases lr with _ | r1 <;> rcases la with _ | ⟨⟨d1, m1⟩, s1⟩ <;>
    rcases nr with _ | r2 <;> rcases no with _ | ⟨⟨d2, m2⟩, s2⟩ <;>
    rcases al with _ | a1 <;>
    simp_all [extract_gps_data, convert_to_degrees, outLat, outLon, outAlt]

/-- C6 witness: a concrete southern, western, below-sea-level reading. -/
theorem extract_gps_data_correct_witness :
    outLat (extract_gps_data ⟨some "S", some (1, 30, 36), some "W",
        some (10, 0, 0), some 1, some 5⟩) = some (-(151/100)) := by
  have h := (extract_gps_data_correct ⟨some "S", some (1, 30, 36), some "W",
      some (10, 0, 0), some 1, some 5⟩).2.1 "S" 1 30 36 rfl rfl
  rw [h]
  norm_num
/-- Int truncation of a nonnegative rational is nonnegative. -/
theorem pyInt_nonneg {q : ℚ} (h : 0 ≤ q) : 0 ≤ pyInt q := by
  rw [pyInt, if_neg (not_lt.mpr h)]
  exact Int.floor_nonneg.mpr h

/-- Int truncation never exceeds a natural upper bound of the argument. -/
theorem pyInt_le_of_le {q : ℚ} {n : ℕ} (h : q ≤ n) : pyInt q ≤ n := by
  rw [pyInt]
  by_cases h0 : q < 0
  · rw [if_pos h0]
    have h1 : (0 : ℤ) ≤ ⌊-q⌋ := Int.floor_nonneg.mpr (by linarith)
    omega
  · rw [if_neg h0]
    have h2 : ⌊q⌋ ≤ ⌊(n : ℚ)⌋ := Int.floor_le_floor h
    simpa using h2

/-- C8: the padded crop rectangle stays inside the image bounds and is never
    of negative size, for every normalized box and positive image size. -/
theorem crop_rect_in_bounds (W H : ℕ) (b0 b1 b2 b3 : ℚ)
    (hW : 0 < W) (hH : 0 < H)
    (h00 : 0 ≤ b0) (h01 : b0 ≤ 1) (h10 : 0 ≤ b1) (h11 : b1 ≤ 1)
    (h20 : 0 ≤ b2) (h21 : b2 ≤ 1) (h30 : 0 ≤ b3) (h31 : b3 ≤ 1) :
    0 ≤ (crop_detection_rect W H (b0, b1, b2, b3)).1 ∧
    (crop_detection_rect W H (b0, b1, b2, b3)).1 ≤ W ∧
    0 ≤ (crop_detection_rect W H (b0, b1, b2, b3)).2.1 ∧
    (crop_detection_rect W H (b0, b1, b2, b3)).2.1 ≤ H ∧
    0 ≤ (crop_detection_rect W H (b0, b1, b2, b3)).2.2.1 ∧
    (crop_detection_rect W H (b0, b1, b2, b3)).2.2.1 ≤ W ∧
    0 ≤ (crop_detection_rect W H (b0, b1, b2, b3)).2.2.2 ∧
    (crop_detection_rect W H (b0, b1, b2, b3)).2.2.2 ≤ H ∧
    (crop_detection_rect W H (b0, b1, b2, b3)).1 ≤
      (crop_detection_rect W H (b0, b1, b2, b3)).2.2.1 ∧
    (crop_detection_rect W H (b0, b1, b2, b3)).2.1 ≤
      (crop_detection_rect W H (b0, b1, b2, b3)).2.2.2 := by
  have hWq : (0 : ℚ) ≤ (W : ℚ) := Nat.cast_nonneg W
  have hHq : (0 : ℚ) ≤ (H : ℚ) := Nat.cast_nonneg H
  have hx0 : 0 ≤ pyInt (b0 * W) := pyInt_nonneg (mul_nonneg h00 hWq)
  have hxW : pyInt (b0 * W) ≤ (W : ℤ) := pyInt_le_of_le (by nlinarith)
  have hy0 : 0 ≤ pyInt (b1 * H) := pyInt_nonneg (mul_nonneg h10 hHq)
  have hyH : pyInt (b1 * H) ≤ (H : ℤ) := pyInt_le_of_le (by nlinarith)
  have hw0 : 0 ≤ pyInt (b2 * W) := pyInt_nonneg (mul_nonneg h20 hWq)
  have hh0 : 0 ≤ pyInt (b3 * H) := pyInt_nonneg (mul_nonneg h30 hHq)
  have hpx0 : 0 ≤ pyInt ((pyInt (b2 * W) : ℚ) * (1/10)) :=
    pyInt_nonneg (by
      have : (0 : ℚ) ≤ (pyInt (b2 * W) : ℚ) := by exact_mod_cast hw0
      nlinarith)
  have hpy0 : 0 ≤ pyInt ((pyInt (b3 * H) : ℚ) * (1/10)) :=
    pyInt_nonneg (by
      have : (0 : ℚ) ≤ (pyInt (b3 * H) : ℚ) := by exact_mod_cast hh0
      nlinarith)
  simp only [crop_detection_rect]
  refine ⟨?_, ?_, ?_, ?_, ?_, ?_, ?_, ?_, ?_, ?_⟩ <;> omega

/-- C8 witness: a concrete centered box in a 100 by 100 image. -/
theorem crop_rect_in_bounds_witness :
    0 ≤ (crop_detection_rect 100 100 (1/2, 1/2, 1/2, 1/2)).1 ∧
    (crop_detection_rect 100 100 (1/2, 1/2, 1/2, 1/2)).2.2.1 ≤ 100 ∧
    (crop_detection_rect 100 100 (1/2, 1/2, 1/2, 1/2)).1 ≤
      (crop_detection_rect 100 100 (1/2, 1/2, 1/2, 1/2)).2.2.1 := by
  have h := crop_rect_in_bounds 100 100 (1/2) (1/2) (1/2) (1/2)
    (by norm_num) (by norm_num) (by norm_num) (by norm_num) (by norm_num)
    (by norm_num) (by norm_num) (by norm_num) (by norm_num) (by norm_num)
  exact ⟨h.1, h.2.2.2.2.2.1, h.2.2.2.2.2.2.2.2.1⟩
/-- Identity of an image row apart from the updated_at bookkeeping field. -/
def rowCore (r : ImageRow) : Nat × ImageData × Option String × Option Nat × Nat :=
  (r.id, r.data, r.error_message, r.processed_at, r.created_at)

/-- The conflict update of the upsert touches only updated_at. -/
theorem rowCore_touch (k : String) (t : Nat) (row : ImageRow) :
    rowCore (if row.data.s3_key == k then { row with updated_at := t } else row) =
      rowCore row := by
  cases h : row.data.s3_key == k <;> simp [h, rowCore]

/-- The conflict update of the upsert preserves the key test. -/
theorem keyTest_touch (k k2 : String) (t : Nat) (row : ImageRow) :
    ((if row.data.s3_key == k then { row with updated_at := t } else row).data.s3_key == k2) =
      (row.data.s3_key == k2) := by
  cases h : row.data.s3_key == k <;> simp [h]

/-- find? commutes with a map that preserves the predicate. -/
theorem find?_map_comm {α : Type} (p : α → Bool) (f : α → α)
    (h : ∀ x, p (f x) = p x) :
    ∀ l : List α, (l.map f).find? p = (l.find? p).map f := by
  intro l
  induction l with
  | nil => rfl
  | cons a t ih =>
      cases hp : p a with
      | true =>
          rw [List.map_cons, List.find?_cons_of_pos _ (by rw [h a, hp]),
              List.find?_cons_of_pos _ hp, Option.map_some']
      | false =>
          rw [List.map_cons, List.find?_cons_of_neg _ (by rw [h a, hp]; simp),
              List.find?_cons_of_neg _ (by simp [hp]), ih]

/-- Mapping the conflict update preserves the rowCore image of the table. -/
theorem map_rowCore_touch (k : String) (t : Nat) (l : List ImageRow) :
    (l.map (fun row => if row.data.s3_key == k then { row with updated_at := t }
        else row)).map rowCore = l.map rowCore := by
  rw [List.map_map]
  exact List.map_congr_left (fun x _ => rowCore_touch k t x)

/-- The conflict update preserves per-key row counts. -/
theorem countP_touch (k k2 : String) (t : Nat) (l : List ImageRow) :
    (l.map (fun row => if row.data.s3_key == k then { row with updated_at := t }
        else row)).countP (fun r => r.data.s3_key == k2) =
      l.countP (fun r => r.data.s3_key == k2) := by
  rw [List.countP_map]
  exact List.countP_congr (fun x _ => by simpa using (keyTest_touch k k2 t x))

/-- After an upsert the table holds a row at the inserted key carrying the
    returned id. -/
theorem insert_image_finds (db : DbState) (a : ImageData) (t : Nat) :
    ∃ r, (insert_image db a t).2.images.find? (fun x => x.data.s3_key == a.s3_key) =
        some r ∧ r.id = (insert_image db a t).1 ∧ r.data.s3_key = a.s3_key := by
  cases h0 : db.images.find? (fun x => x.data.s3_key == a.s3_key) with
  | none =>
      refine ⟨⟨db.next_image_id, a, none, none, t, t⟩, ?_, ?_, rfl⟩
      · simp only [insert_image, h0]
        exact List.find?_cons_of_pos _ (by simp)
      · simp only [insert_image, h0]
  | some r0 =>
      have hrk : (r0.data.s3_key == a.s3_key) = true := by
        simpa using List.find?_some h0
      refine ⟨if r0.data.s3_key == a.s3_key then { r0 with updated_at := t } else r0,
        ?_, ?_, ?_⟩
      · simp only [insert_image, h0]
        rw [find?_map_comm _ _ (fun row => keyTest_touch a.s3_key a.s3_key t row), h0,
          Option.map_some']
      · simp only [insert_image, h0, hrk, if_true]
      · rw [hrk]
        simpa using hrk

/-- An upsert over a table holding the key takes the conflict branch: it
    returns the id of the found row, changes no rowCore and no key count. -/
theorem insert_image_conflict (db1 : DbState) (b : ImageData) (t : Nat) (r : ImageRow)
    (h : db1.images.find? (fun x => x.data.s3_key == b.s3_key) = some r) :
    (insert_image db1 b t).1 = r.id ∧
    (insert_image db1 b t).2.images.map rowCore = db1.images.map rowCore ∧
    ∀ k2, (insert_image db1 b t).2.images.countP (fun x => x.data.s3_key == k2) =
      db1.images.countP (fun x => x.data.s3_key == k2) := by
  simp only [insert_image, h]
  exact ⟨trivial, map_rowCore_touch _ _ _, fun k2 => countP_touch _ _ _ _⟩

/-- An upsert at a previously absent key yields exactly one row at the key. -/
theorem insert_image_countP_fresh (db : DbState) (a : ImageData) (t : Nat)
    (hz : db.images.countP (fun x => x.data.s3_key == a.s3_key) = 0) :
    (insert_image db a t).2.images.countP (fun x => x.data.s3_key == a.s3_key) = 1 := by
  cases h0 : db.images.find? (fun x => x.data.s3_key == a.s3_key) with
  | none =>
      simp only [insert_image, h0]
      rw [List.countP_cons]
      simp [hz]
  | some r0 =>
      exfalso
      have hrk : (r0.data.s3_key == a.s3_key) = true := by
        simpa using List.find?_some h0
      have hmem : r0 ∈ db.images := List.mem_of_find?_eq_some h0
      have := List.countP_eq_zero.mp hz r0 hmem
      simp [hrk] at this

/-- C1: the image upsert is idempotent at the record level: a second insert
    with the same storage key (any byte content) returns the same id, keeps
    every row identical apart from updated_at, creates no extra row for the
    key, and yields exactly one row for a previously absent key. -/
theorem insert_image_upsert_idempotent (db : DbState) (a b : ImageData)
    (t1 t2 : Nat) (hk : b.s3_key = a.s3_key) :
    (insert_image (insert_image db a t1).2 b t2).1 = (insert_image db a t1).1 ∧
    (insert_image (insert_image db a t1).2 b t2).2.images.map rowCore =
      (insert_image db a t1).2.images.map rowCore ∧
    (insert_image (insert_image db a t1).2 b t2).2.images.countP
        (fun x => x.data.s3_key == a.s3_key) =
      (insert_image db a t1).2.images.countP (fun x => x.data.s3_key == a.s3_key) ∧
    (db.images.countP (fun x => x.data.s3_key == a.s3_key) = 0 →
      (insert_image (insert_image db a t1).2 b t2).2.images.countP
        (fun x => x.data.s3_key == a.s3_key) = 1) := by
  obtain ⟨r, hfind, hid, hkey⟩ := insert_image_finds db a t1
  have hfind2 : (insert_image db a t1).2.images.find?
      (fun x => x.data.s3_key == b.s3_key) = some r := by
    simpa [hk] using hfind
  obtain ⟨h1, h2, h3⟩ := insert_image_conflict (insert_image db a t1).2 b t2 r hfind2
  refine ⟨h1.trans hid, h2, h3 a.s3_key, fun hz => ?_⟩
  rw [h3 a.s3_key]
  exact insert_image_countP_fresh db a t1 hz

/-- First image payload of the witness. -/
def imgA : ImageData :=
  { s3_bucket := "b", s3_key := "proj/x.jpg", file_name := some "x.jpg",
    file_size := 10, file_hash := "h1", camera_id := none, project_name := some "proj",
    client := none, country := none, captured_at := none, exif_blob := "e",
    gps_latitude := none, gps_longitude := none, gps_altitude := none,
    camera_make := none, camera_model := none, width := none, height := none,
    format := none, processing_status := "processing", brightness_score := none,
    sharpness_score := none, quality_score := none }

/-- Second image payload of the witness: same key, different byte content. -/
def imgB : ImageData := { imgA with file_hash := "h2", file_size := 11 }

/-- C1 witness: two inserts at the same fresh key with different contents. -/
theorem insert_image_upsert_idempotent_witness :
    (insert_image (insert_image ⟨[], [], [], 1, 1, 1⟩ imgA 5).2 imgB 9).1 =
      (insert_image ⟨[], [], [], 1, 1, 1⟩ imgA 5).1 ∧
    (insert_image (insert_image ⟨[], [], [], 1, 1, 1⟩ imgA 5).2 imgB 9).2.images.countP
        (fun x => x.data.s3_key == imgA.s3_key) = 1 := by
  have h := insert_image_upsert_idempotent ⟨[], [], [], 1, 1, 1⟩ imgA imgB 5 9 rfl
  exact ⟨h.1, h.2.2.2 rfl⟩
/-- Sum of a constant over a mapped list. -/
theorem listSum_map_const {α : Type} (l : List α) (c : ℚ) :
    (l.map (fun _ => c)).sum = l.length * c := by
  induction l with
  | nil => simp
  | cons a t ih => simp [ih]; ring

/-- Row sum of a constant function. -/
theorem rowSum_const (W : ℕ) (c : ℚ) : rowSum W (fun _ => c) = W * c := by
  simp [rowSum, listSum_map_const]

/-- Grid sum of a constant function. -/
theorem sum2_const (W H : ℕ) (c : ℚ) :
    sum2 W H (fun _ _ => c) = (H : ℚ) * ((W : ℚ) * c) := by
  simp [sum2, rowSum_const, listSum_map_const]

/-- The Laplacian of a constant grid vanishes everywhere. -/
theorem lapAt_const (W H : ℕ) (c : ℤ) (i j : ℕ) :
    lapAt (constGray W H c) i j = 0 := by
  simp [lapAt, pixAt, constGray]
  ring

/-- C7: the quality scorer yields the rounded brightness, capped Laplacian
    variance and 0.3/0.7 blend on any decoded grid, the exact neutral triple
    when decoding fails, and on a constant mid-gray grid brightness 0.498,
    sharpness 0 and overall 0.2988. -/
theorem calculate_image_quality_correct :
    (calculate_image_quality none = ⟨1/2, 1/2, 1/2⟩) ∧
    (∀ g : Gray, calculate_image_quality (some g) =
      ⟨round4 (brightnessOf g), round4 (sharpnessNormOf g), round4 (overallOf g)⟩) ∧
    (∀ W H : ℕ, 0 < W → 0 < H →
      calculate_image_quality (some (constGray W H 127)) =
        ⟨498/1000, 0, 2988/10000⟩) := by
  refine ⟨rfl, fun g => rfl, fun W H hW hH => ?_⟩
  have hWq : ((W : ℚ)) ≠ 0 := Nat.cast_ne_zero.mpr hW.ne'
  have hHq : ((H : ℚ)) ≠ 0 := Nat.cast_ne_zero.mpr hH.ne'
  have hn : ((W * H : ℕ) : ℚ) = (W : ℚ) * (H : ℚ) := by push_cast; ring
  have he : calculate_image_quality (some (constGray W H 127)) =
      ⟨round4 (brightnessOf (constGray W H 127)),
       round4 (sharpnessNormOf (constGray W H 127)),
       round4 (overallOf (constGray W H 127))⟩ := rfl
  have hrow : (fun (i j : ℕ) => (((constGray W H 127).pix i j : ℤ) : ℚ)) =
      fun _ _ => (127 : ℚ) := by
    funext i j
    simp [constGray]
  have hb : brightnessOf (constGray W H 127) = 127/255 := by
    show sum2 W H (fun i j => (((constGray W H 127).pix i j : ℤ) : ℚ)) /
        ((W * H : ℕ) : ℚ) / 255 = 127/255
    rw [hrow, sum2_const, hn]
    field_simp
    ring
  have hsum0 : sum2 W H (fun i j => ((lapAt (constGray W H 127) i j : ℤ) : ℚ)) = 0 := by
    have hlrow : (fun (i j : ℕ) => ((lapAt (constGray W H 127) i j : ℤ) : ℚ)) =
        fun _ _ => (0 : ℚ) := by
      funext i j
      rw [lapAt_const]
      norm_num
    rw [hlrow, sum2_const]
    ring
  have hvar : lapVarOf (constGray W H 127) = 0 := by
    show sum2 W H (fun i j => (((lapAt (constGray W H 127) i j : ℤ) : ℚ) -
        sum2 W H (fun i j => ((lapAt (constGray W H 127) i j : ℤ) : ℚ)) /
          ((W * H : ℕ) : ℚ)) ^ 2) / ((W * H : ℕ) : ℚ) = 0
    have hdev : (fun (i j : ℕ) => (((lapAt (constGray W H 127) i j : ℤ) : ℚ) -
        sum2 W H (fun i j => ((lapAt (constGray W H 127) i j : ℤ) : ℚ)) /
          ((W * H : ℕ) : ℚ)) ^ 2) = fun _ _ => (0 : ℚ) := by
      funext i j
      rw [lapAt_const, hsum0]
      norm_num
    rw [hdev, sum2_const]
    ring
  have hs : sharpnessNormOf (constGray W H 127) = 0 := by
    simp only [sharpnessNormOf]
    rw [hvar]
    norm_num
  have ho : overallOf (constGray W H 127) = 127/425 := by
    simp only [overallOf]
    rw [hb, hs]
    rw [abs_of_nonpos (by norm_num : (127 : ℚ)/255 - 1/2 ≤ 0)]
    norm_num
  have hr1 : round4 ((127 : ℚ)/255) = 498/1000 := by
    rw [round4, round_eq]
    norm_num
  have hr2 : round4 (0 : ℚ) = 0 := by
    rw [round4, round_eq]
    norm_num
  have hr3 : round4 ((127 : ℚ)/425) = 2988/10000 := by
    rw [round4, round_eq]
    norm_num
  rw [he, hb, hs, ho, hr1, hr2, hr3]

/-- C7 witness: the constant mid-gray claim at a concrete 2 by 2 image. -/
theorem calculate_image_quality_correct_witness :
    calculate_image_quality (some (constGray 2 2 127)) = ⟨498/1000, 0, 2988/10000⟩ :=
  calculate_image_quality_correct.2.2 2 2 (by norm_num) (by norm_num)

/-- The image insert call always raises: location_id is a placeholder of the
    query but not a key of the image_record mapping. -/
theorem insert_image_call_raises (db : DbState) (record : ImageData) (now : Nat) :
    insert_image_call db record now = .error (keyErrorStr "location_id") := by
  have h : firstMissingParam images_insert_params image_record_keys =
      some "location_id" := by decide
  rw [insert_image_call, h]

/-- The detection insert call raises KeyError species_id on the species-less
    base record. -/
theorem insert_detection_call_base (db : DbState) (image_id : Nat) (d : Detection) :
    insert_detection_call db (base_detection_record image_id d) =
      .error (keyErrorStr "species_id") := by
  have hk : detection_record_keys (base_detection_record image_id d) =
      ["image_id", "detection_type", "bbox_x", "bbox_y", "bbox_width",
       "bbox_height", "megadetector_confidence", "needs_review"] := rfl
  have h : firstMissingParam detections_insert_params
      (detection_record_keys (base_detection_record image_id d)) =
      some "species_id" := by
    rw [hk]
    decide
  rw [insert_detection_call, h]

/-- The detection insert call performs the insert when every species field
    is attached. -/
theorem insert_detection_call_some (db : DbState) (r : DetectionRow)
    (h1 : r.species_id.isSome = true) (h2 : r.speciesnet_confidence.isSome = true)
    (h3 : r.overall_confidence.isSome = true) (h4 : r.species_top5.isSome = true) :
    insert_detection_call db r = .ok (insert_detection db r) := by
  have hk : detection_record_keys r =
      ["image_id", "detection_type", "bbox_x", "bbox_y", "bbox_width",
       "bbox_height", "megadetector_confidence", "needs_review",
       "species_id", "speciesnet_confidence", "overall_confidence",
       "species_top5"] := by
    simp [detection_record_keys, h1, h2, h3, h4]
  have h : firstMissingParam detections_insert_params (detection_record_keys r) =
      none := by
    rw [hk]
    decide
  rw [insert_detection_call, h]

/-- Condition under which the handler attaches species fields to a detection:
    the box is animal category and the classifier kept at least one
    prediction at or above the threshold for the crop of the box. -/
def speciesCond (env : Env) (bytes : Bytes) (d : Detection) : Prop :=
  d.category = "animal" ∧ ∃ cb raw, env.crop bytes d.bbox = Except.ok cb ∧
    env.classifyRaw cb = Except.ok raw ∧ SpeciesNet.classify env.threshold raw ≠ []

/-- C4: a persisted detection row carries each of the species fields exactly
    when the detection is animal category and the classifier returned at
    least one prediction at or above its threshold for the crop of the box.
    In the code no species-less row is ever persisted (the insert raises on
    the missing species keys), so every persisted row satisfies the iff with
    both sides true. -/
theorem detection_species_fields_iff (env : Env) (bytes : Bytes) (image_id : Nat)
    (db : DbState) (d : Detection) (row : DetectionRow) (db2 : DbState)
    (h : processOneDetection env bytes image_id db d = .ok (row, db2)) :
    (row.species_id.isSome ↔ speciesCond env bytes d) ∧
    (row.speciesnet_confidence.isSome ↔ speciesCond env bytes d) ∧
    (row.overall_confidence.isSome ↔ speciesCond env bytes d) ∧
    (row.species_top5.isSome ↔ speciesCond env bytes d) := by
  by_cases hcat : d.category = "animal"
  · rw [processOneDetection, if_pos hcat] at h
    cases hcrop : env.crop bytes d.bbox with
    | error e => rw [hcrop] at h; exact absurd h (by simp)
    | ok cb =>
        rw [hcrop] at h
        simp only [] at h
        cases hraw : env.classifyRaw cb with
        | error e => rw [hraw] at h; exact absurd h (by simp)
        | ok raw =>
            rw [hraw] at h
            simp only [] at h
            cases hcls : SpeciesNet.classify env.threshold raw with
            | nil =>
                rw [hcls] at h
                simp only [] at h
                have hnc : ¬ speciesCond env bytes d := by
                  rintro ⟨-, cb2, raw2, hc2, hr2, hne2⟩
                  rw [hcrop] at hc2
                  injection hc2 with hcb
                  subst hcb
                  rw [hraw] at hr2
                  injection hr2 with hraw2
                  subst hraw2
                  exact hne2 hcls
                rw [insert_detection_call_base] at h
                exact absurd h (by simp)
            | cons top rest =>
                rw [hcls] at h
                simp only [] at h
                split at h
                · exact absurd h (by simp)
                · simp only [Except.ok.injEq, Prod.mk.injEq] at h
                  obtain ⟨hrow, -⟩ := h
                  have hc : speciesCond env bytes d :=
                    ⟨hcat, cb, raw, hcrop, hraw, by rw [hcls]; simp⟩
                  subst hrow
                  simp [hc]
  · rw [processOneDetection, if_neg hcat] at h
    rw [insert_detection_call_base] at h
    exact absurd h (by simp)

/-- Empty durable store with serial counters at one. -/
def db_empty : DbState := ⟨[], [], [], 1, 1, 1⟩

/-- EXIF output with no recognized tags. -/
def exif0 : ExifOut := ⟨none, none, none, none, none, none, none, none, none, "e"⟩

/-- Environment for the single-detection witnesses: one animal box whose
    classifier prediction falls below the threshold. -/
def envStep : Env :=
  { bucket := "b", threshold := 1/2, now := 0, db0 := db_empty, dyn0 := []
    fetch := fun _ => .ok [0]
    sha256 := fun _ => "h"
    exif := fun _ => exif0
    decodeGray := fun _ => none
    detect := fun _ => .ok []
    crop := fun _ _ => .ok [7]
    classifyRaw := fun _ => .ok [⟨"Puma concolor", "Puma", 3/10⟩] }

/-- Animal detection at confidence 0.9 used by the witnesses. -/
def dStep : Detection := ⟨"animal", 9/10, (0, 0, 1/2, 1/2)⟩

/-- Variant of the witness environment whose classifier prediction survives
    the threshold. -/
def envStep2 : Env :=
  { envStep with classifyRaw := fun _ => .ok [⟨"Ursus arctos", "Brown Bear", 7/10⟩] }

/-- Row produced for dStep under envStep2 (all species fields attached). -/
def rowFull : DetectionRow :=
  ⟨1, 1, "animal", 0, 0, 1/2, 1/2, 9/10, false, some 1, some (7/10), some (4/5),
   some [⟨"Ursus arctos", "Brown Bear", 7/10⟩]⟩

/-- Store state after inserting rowFull and its species into the empty store. -/
def dbFull : DbState :=
  ⟨[], [rowFull], [⟨1, "Ursus arctos", some "Brown Bear"⟩], 1, 2, 2⟩

/-- C4 witness: the field condition evaluated on a concrete persisted row. -/
theorem detection_species_fields_iff_witness :
    rowFull.species_id.isSome ↔ speciesCond envStep2 [0] dStep := by
  have h : processOneDetection envStep2 [0] 1 db_empty dStep = .ok (rowFull, dbFull) := by
    norm_num [processOneDetection, base_detection_record, insert_detection_call_some,
      insert_detection, get_or_create_species, SpeciesNet.classify, List.filter,
      envStep, envStep2, dStep, db_empty, rowFull, dbFull]
  exact (detection_species_fields_iff envStep2 [0] 1 db_empty dStep rowFull dbFull h).1

/-- C5: for an animal detection whose filtered classifier list is empty, the
    code does not record the detection: the species-less dict lacks the
    species placeholder keys, the insert call raises KeyError species_id, and
    the store state is left exactly as it was. -/
theorem empty_classifier_insert_raises (env : Env) (bytes : Bytes)
    (image_id : Nat) (db : DbState) (d : Detection) (cb : Bytes) (raw : List Prediction)
    (hcat : d.category = "animal")
    (hcrop : env.crop bytes d.bbox = .ok cb)
    (hraw : env.classifyRaw cb = .ok raw)
    (hempty : SpeciesNet.classify env.threshold raw = []) :
    processOneDetection env bytes image_id db d =
      .error (keyErrorStr "species_id", db) := by
  rw [processOneDetection, if_pos hcat, hcrop]
  simp only []
  rw [hraw]
  simp only []
  rw [hempty]
  simp only []
  rw [insert_detection_call_base]

/-- C5 witness: the raising insert at the concrete detection. -/
theorem empty_classifier_insert_raises_witness :
    processOneDetection envStep [0] 1 db_empty dStep =
      .error (keyErrorStr "species_id", db_empty) :=
  empty_classifier_insert_raises envStep [0] 1 db_empty dStep [7]
    [⟨"Puma concolor", "Puma", 3/10⟩] rfl rfl rfl
    (by norm_num [SpeciesNet.classify, List.filter, envStep])

/-- Environment of the end-to-end scenario of C3: the detector would return
    one animal box at confidence 0.9 and the classifier model the ranked list
    Ursus arctos 0.7, Canis lupus 0.2 under threshold 0.5. -/
def envC3 : Env :=
  { bucket := "bkt", threshold := 1/2, now := 0, db0 := db_empty, dyn0 := []
    fetch := fun _ => .ok [1]
    sha256 := fun _ => "hash1"
    exif := fun _ => exif0
    decodeGray := fun _ => none
    detect := fun _ => .ok [⟨"animal", 9/10, (1/10, 1/10, 1/2, 1/2)⟩]
    crop := fun _ _ => .ok [2]
    classifyRaw := fun _ => .ok [⟨"Ursus arctos", "Brown Bear", 7/10⟩,
                                 ⟨"Canis lupus", "Gray Wolf", 2/10⟩] }

/-- C3: the claimed end-to-end run cannot complete: the image upsert call
    raises KeyError location_id before the detector is ever invoked, the run
    returns 500, the durable store is left untouched (no ImageRecord and no
    DetectionRecord), and the tracking store records the failure message. -/
theorem process_image_end_to_end_bear_keyerror :
    (process_image true envC3 "k").statusCode = 500 ∧
    (process_image true envC3 "k").db = db_empty ∧
    (process_image true envC3 "k").db.detections = [] ∧
    dynGet (process_image true envC3 "k").dyn "k" =
      some ⟨"k", "DETECTION_FAILED", 0, none, none, none,
            some (keyErrorStr "location_id")⟩ := by
  refine ⟨?_, ?_, ?_, ?_⟩ <;>
    norm_num [process_image, envC3, db_empty, insert_image_call_raises,
      update_dynamodb_status, dynPut, dynGet, emptyMeta, List.filter]

/-- The tracking store holds the failed status with the message at the key. -/
def trackingFailed (dyn : DynState) (key m : String) : Prop :=
  ∃ it, dynGet dyn key = some it ∧ it.processing_status = "DETECTION_FAILED" ∧
    it.error_message = some m

/-- The failed tracking write leaves the failed item readable at the key. -/
theorem dynGet_after_failed (dyn : DynState) (now : Nat) (key m : String) :
    dynGet (update_dynamodb_status true dyn now key "DETECTION_FAILED"
      { emptyMeta with error_message := some m }) key =
    some ⟨key, "DETECTION_FAILED", now, none, none, none, some m⟩ := by
  simp only [update_dynamodb_status, dynPut, dynGet, emptyMeta, if_true]
  exact List.find?_cons_of_pos _ (by simp)

/-- C2: on every run that reaches the image upsert, the call raises KeyError
    location_id before an image identifier is obtained, so the durable store
    is left untouched (never marked failed) and only the tracking store is
    updated, with the failed status and the captured message. -/
theorem process_image_keyerror (env : Env) (key : String) (bytes : Bytes)
    (hf : env.fetch key = .ok bytes) :
    (process_image true env key).db = env.db0 ∧
    trackingFailed (process_image true env key).dyn key (keyErrorStr "location_id") ∧
    (process_image true env key).statusCode = 500 := by
  simp only [process_image, hf, insert_image_call_raises]
  exact ⟨by trivial, ⟨_, dynGet_after_failed _ _ _ _, rfl, rfl⟩, by trivial⟩

/-- C2 witness: the raising upsert on a concrete run. -/
theorem process_image_keyerror_witness :
    (process_image true envStep "k").db = envStep.db0 ∧
    trackingFailed (process_image true envStep "k").dyn "k"
      (keyErrorStr "location_id") ∧
    (process_image true envStep "k").statusCode = 500 :=
  process_image_keyerror envStep "k" [0] rfl

/-- C10: the tracking status update swallows store failures: a failing put
    leaves the tracking store unchanged and raises nothing, and a run whose
    tracking puts all fail produces the same status code, response body and
    durable store state as a run whose puts all succeed. -/
theorem update_dynamodb_status_isolated :
    (∀ (dyn : DynState) (now : Nat) (key status : String) (meta : DynMeta),
      update_dynamodb_status false dyn now key status meta = dyn) ∧
    (∀ (env : Env) (key : String),
      ((process_image false env key).statusCode, (process_image false env key).db,
       (process_image false env key).body) =
      ((process_image true env key).statusCode, (process_image true env key).db,
       (process_image true env key).body)) := by
  refine ⟨fun dyn now key status meta => rfl, fun env key => ?_⟩
  simp only [process_image]
  cases hf : env.fetch key with
  | error e => rfl
  | ok bytes =>
      simp only []
      cases hic : insert_image_call env.db0 (build_image_record env key bytes) env.now with
      | error e => rfl
      | ok ins =>
          obtain ⟨iid, db1⟩ := ins
          simp only []
          cases hd : env.detect bytes with
          | error e => rfl
          | ok dets =>
              simp only []
              cases hp : processDetections env bytes iid db1 dets with
              | error p => obtain ⟨m, db2⟩ := p; rfl
              | ok p => obtain ⟨rows, db2⟩ := p; rfl
